import Mathlib

/-!
Shallow embedding of two modules of the easybuild framework:
`easybuild/tools/package/utilities.py` (packaging with the external fpm
tool) and `easybuild/tools/systemtools.py` (system probing helpers),
together with theorems about their observable behaviour.

Environment interactions (configuration lookups, PATH search, temporary
directory creation, `os.chdir`, file reads, subprocess output) are passed
in as explicit parameters; the command string handed to `run_cmd` is part
of the returned value.  Python exceptions are modelled by `Except` with a
value recording the exception class and the formatted message.
-/

namespace EasyBuild

/-- Python exception classes raised by the two modules under study.
`easyBuildError` is `EasyBuildError` from `easybuild.tools.build_log`;
`systemToolsException` is `SystemToolsException` from `systemtools.py`;
`attributeError` and `nameError` are the built-in Python exceptions. -/
inductive PyExcClass where
  | easyBuildError
  | systemToolsException
  | attributeError
  | nameError
  deriving DecidableEq, Repr

/-- A raised Python exception: its class together with the formatted message. -/
structure PyExc where
  cls : PyExcClass
  msg : String
  deriving DecidableEq, Repr

deriving instance DecidableEq for Except

/-- Constant from `package/utilities.py` line 52. -/
def DEFAULT_PNS : String := "EasyBuildPNS"

/-- Constant from `package/utilities.py` line 53. -/
def PKG_TOOL_FPM : String := "fpm"

/-- Constant from `package/utilities.py` line 54. -/
def PKG_TYPE_RPM : String := "rpm"

/-- Modelled from the spec: `DUMMY_TOOLCHAIN_NAME` is imported from
`easybuild.tools.toolchain`, which is not among the given sources; the spec
calls it the "no toolchain" sentinel.  Its concrete value is irrelevant to
the theorems below, which only compare toolchain names against it. -/
def DUMMY_TOOLCHAIN_NAME : String := "dummy"

/-- A resolved package naming scheme instance, as wrapped by `ActivePNS`
(lines 162-193): `name` and `version` take an easyconfig-like mapping,
`release` takes no argument. -/
structure PNS (α : Type) where
  name : α → String
  version : α → String
  release : String

/-- The part of `easyblock.toolchain` used by `package_with_fpm`:
its `name` and the mapping produced by `as_dict()`. -/
structure Toolchain (α : Type) where
  name : String
  as_dict : α

/-- The part of `easyblock.module_generator` used by `package_with_fpm`. -/
structure ModuleGenerator where
  filename : String

/-- The part of the `easyblock` argument read by `package_with_fpm`:
`cfg` (passed to the naming scheme), `cfg.dependencies()`, the toolchain,
`installdir` and `module_generator.filename`. -/
structure EasyBlock (α : Type) where
  cfg : α
  cfgDependencies : List α
  toolchain : Toolchain α
  installdir : String
  module_generator : ModuleGenerator

/-- Dependency list assembled by `package_with_fpm` (lines 102-107): the
toolchain dict is prepended unless the toolchain is the dummy toolchain,
then the declared dependencies of the easyconfig follow. -/
def fpm_deps {α : Type} (eb : EasyBlock α) : List α :=
  (if eb.toolchain.name ≠ DUMMY_TOOLCHAIN_NAME then [eb.toolchain.as_dict] else [])
    ++ eb.cfgDependencies

/-- The fragment appended to `depstring` for one dependency (line 115):
`" --depends '<resolved name>'"`. -/
def dep_fragment {α : Type} (pns : PNS α) (dep : α) : String :=
  " --depends \x27" ++ pns.name dep ++ "\x27"

/-- The `depstring` accumulation loop of `package_with_fpm` (lines 111-115). -/
def fpm_depstring {α : Type} (pns : PNS α) (deps : List α) : String :=
  deps.foldl (fun acc dep => acc ++ dep_fragment pns dep) ""

/-- Result of a successful `package_with_fpm` call: the command string handed
to `run_cmd` (line 130-132) and the returned work directory (line 136). -/
structure FpmOutcome where
  cmd : String
  pkgdir : String
  deriving DecidableEq, Repr

/-- Shallow embedding of `package_with_fpm` (lines 82-136).  `workdir` is the
fresh temporary directory made by `tempfile.mkdtemp`, `pkgtype` the
configured package type, `chdirErr` the `OSError` message when `os.chdir`
fails (`none` on success), and `pns` the resolved `ActivePNS`. -/
def package_with_fpm {α : Type} (pns : PNS α) (eb : EasyBlock α)
    (workdir pkgtype : String) (chdirErr : Option String) : Except PyExc FpmOutcome :=
  match chdirErr with
  | some err =>
    .error ⟨.easyBuildError, "Failed to chdir into workdir " ++ workdir ++ ": " ++ err⟩
  | none =>
    let pkgname := pns.name eb.cfg
    let pkgver := pns.version eb.cfg
    let pkgrel := pns.release
    let deps := fpm_deps eb
    let depstring := fpm_depstring pns deps
    let cmdlist := [PKG_TOOL_FPM,
      "--workdir", workdir,
      "--name", pkgname,
      "--provides", pkgname,
      "-t", pkgtype,
      "-s", "dir",
      "--version", pkgver,
      "--iteration", pkgrel,
      depstring,
      eb.installdir,
      eb.module_generator.filename]
    .ok ⟨String.intercalate " " cmdlist, workdir⟩

/-- Embedding of `package` (lines 69-79): dispatch on the configured
packaging tool, raising `EasyBuildError` for anything but fpm. -/
def package {α : Type} (pkgtool : String) (pns : PNS α) (eb : EasyBlock α)
    (workdir pkgtype : String) (chdirErr : Option String) : Except PyExc FpmOutcome :=
  if pkgtool = PKG_TOOL_FPM then package_with_fpm pns eb workdir pkgtype chdirErr
  else .error ⟨.easyBuildError, "Unknown packaging tool specified: " ++ pkgtool⟩

/-- Python 2 `repr` of `avail_pns.keys()` as interpolated into the error
message of `ActivePNS.__init__` (line 178). -/
def keys_repr (keys : List String) : String :=
  "[" ++ String.intercalate ", " (keys.map (fun k => "\x27" ++ k ++ "\x27")) ++ "]"

/-- Embedding of `ActivePNS.__init__` (lines 168-178).  `avail` is the
mapping from class name to naming scheme instance produced by
`avail_package_naming_schemes()`, `sel` the name returned by
`get_package_naming_scheme()`. -/
def activePNS_init {α : Type} (avail : List (String × PNS α)) (sel : String) :
    Except PyExc (PNS α) :=
  match avail.lookup sel with
  | some pns => .ok pns
  | none =>
    .error ⟨.easyBuildError,
      "Selected package naming scheme " ++ sel ++ " could not be found in "
        ++ keys_repr (avail.map Prod.fst)⟩

/-- Embedding of `check_pkg_support` (lines 139-159); `which` models PATH
lookup (`easybuild.tools.filetools.which`). -/
def check_pkg_support (which : String → Option String) (pkgtool pkgtype : String) :
    Except PyExc Unit :=
  match which pkgtool with
  | some _ =>
    if pkgtool = PKG_TOOL_FPM ∧ pkgtype = PKG_TYPE_RPM then
      match which "rpmbuild" with
      | some _ => .ok ()
      | none =>
        .error ⟨.easyBuildError,
          "rpmbuild is required when generating RPM packages with FPM, but was not found"⟩
    else .ok ()
  | none =>
    .error ⟨.easyBuildError, "Selected packaging tool \x27" ++ pkgtool ++ "\x27 not found"⟩

/-- Python `str.isspace` on a single character (the ASCII whitespace class). -/
def py_isspace (c : Char) : Bool :=
  c = ' ' || c = '\t' || c = '\n' || c = '\r' || c = '\x0b' || c = '\x0c'

/-- Python `str.strip()`: remove leading and trailing whitespace. -/
def py_strip (s : String) : String :=
  ⟨((s.data.dropWhile py_isspace).reverse.dropWhile py_isspace).reverse⟩

/-- Python `str.lower()` on one character (ASCII range, which covers every
string these modules handle). -/
def py_lower_char (c : Char) : Char :=
  if c.isUpper then Char.ofNat (c.toNat + 32) else c

/-- Python `str.lower()`. -/
def py_lower (s : String) : String := ⟨s.data.map py_lower_char⟩

/-- Value of a nonempty digit string. -/
def digitsToNat (l : List Char) : Nat := l.foldl (fun n c => n * 10 + (c.toNat - 48)) 0

/-- Python `int()` applied to captured command output (line 80): strip
surrounding whitespace, accept an optional sign followed by digits;
`none` models `ValueError`. -/
def py_int (s : String) : Option Int :=
  match (py_strip s).data with
  | [] => none
  | c :: cs =>
    if c = '-' then
      if cs ≠ [] ∧ cs.all Char.isDigit then some (-(digitsToNat cs : Int)) else none
    else if c = '+' then
      if cs ≠ [] ∧ cs.all Char.isDigit then some (digitsToNat cs : Int) else none
    else if (c :: cs).all Char.isDigit then some (digitsToNat (c :: cs) : Int)
    else none

/-- Non-overlapping substring count over character lists, as Python
`str.count`; the first argument is explicit fuel so that the definition is
structurally recursive and evaluates definitionally.  After a match the scan
resumes right after the matched occurrence. -/
def str_count_aux (pat : List Char) : Nat → List Char → Nat
  | 0, _ => 0
  | fuel + 1, s =>
    match s with
    | [] => 0
    | c :: cs =>
      if pat.isPrefixOf (c :: cs) then 1 + str_count_aux pat fuel (cs.drop (pat.length - 1))
      else str_count_aux pat fuel cs

/-- Python `s.count(pat)` for a nonempty pattern (line 71). -/
def str_count (s pat : String) : Nat := str_count_aux pat.data s.data.length s.data

/-- Embedding of `get_core_count` (lines 47-88).  `mp` is the value of
`multiprocessing.cpu_count()` (`none` when the import fails or the call
raises `NotImplementedError`); `sysconf` the value of
`os.sysconf('SC_NPROCESSORS_ONLN')` (`none` on `AttributeError` or
`ValueError`); `cpuinfo` the contents of `/proc/cpuinfo` (`none` on
`IOError`); `sysctlOut` the captured output of `sysctl -n hw.ncpu`. -/
def get_core_count (mp sysconf : Option Int) (cpuinfo : Option String)
    (sysctlOut : String) : Except PyExc Int :=
  match mp with
  | some n => .ok n
  | none =>
    let posix : Option Int :=
      match sysconf with
      | some cores => if 0 < cores then some cores else none
      | none => none
    match posix with
    | some cores => .ok cores
    | none =>
      let linux : Option Int :=
        match cpuinfo with
        | some content =>
          let res : Int := str_count content "processor\t:"
          if 0 < res then some res else none
        | none => none
      match linux with
      | some res => .ok res
      | none =>
        let bsd : Option Int :=
          match py_int sysctlOut with
          | some cores => if 0 < cores then some cores else none
          | none => none
        match bsd with
        | some cores => .ok cores
        | none =>
          .error ⟨.systemToolsException, "Can not determine number of cores on this system"⟩

/-- Embedding of `get_system_type` (lines 154-160); `platform_system` is
the value of `platform.system()`. -/
def get_system_type (platform_system : String) : Except PyExc String :=
  if 0 < platform_system.length then .ok platform_system
  else .error ⟨.systemToolsException, "Failed to determine system name using platform.system()."⟩

/-- The static lookup table of `get_shared_lib_ext` (lines 167-170). -/
def shared_lib_exts : List (String × String) := [("Linux", "so"), ("Darwin", "dylib")]

/-- Embedding of `get_shared_lib_ext` (lines 162-178); the message of the
failure case reproduces the source string verbatim, including its missing
space after the comma. -/
def get_shared_lib_ext (platform_system : String) : Except PyExc String :=
  match get_system_type platform_system with
  | .error e => .error e
  | .ok system_type =>
    match shared_lib_exts.lookup system_type with
    | some ext => .ok ext
    | none =>
      .error ⟨.systemToolsException,
        "Unable to determine extention for shared libraries," ++ "unknown system name: "
          ++ system_type⟩

/-- Embedding of `get_platform_name` (lines 180-201); `platform_release` is
`platform.release()` and `machine` is `platform.machine()`.  On Linux the
branch overwrites `release` with the literal `"-gnu"`; on Darwin the real
release string is kept. -/
def get_platform_name (withversion : Bool) (platform_system platform_release machine : String) :
    Except PyExc String := do
  let system_type ← get_system_type platform_system
  let vr ←
    if system_type = "Linux" then pure ("unknown", "-gnu")
    else if system_type = "Darwin" then pure ("apple", platform_release)
    else Except.error (⟨.systemToolsException,
      "Failed to determine platform name, unknown system name: " ++ system_type⟩ : PyExc)
  let platform_name :=
    if withversion then machine ++ "-" ++ vr.1 ++ "-" ++ py_lower system_type ++ vr.2
    else machine ++ "-" ++ vr.1 ++ "-" ++ py_lower system_type
  pure platform_name

/-- The static alias table of `get_system_name` (lines 217-221). -/
def system_name_map : List (String × String) :=
  [("red hat enterprise linux server", "RHEL"),
   ("scientific linux sl", "SL"),
   ("scientific linux", "SL")]

/-- Embedding of `get_system_name` (lines 203-226).  `linux_distribution` is
`platform.linux_distribution()[0]` when that attribute exists, `none` when
looking it up raises `AttributeError` (Python pre-2.6).  The handler on
line 212 names the undefined identifier `AttributeErrror` (a typo for
`AttributeError`), so in Python evaluating the except clause itself raises
`NameError` and the `platform.dist()` fallback (`_dist_name`) is dead code. -/
def get_system_name (linux_distribution : Option String) (_dist_name : String) :
    Except PyExc String :=
  match linux_distribution with
  | none => .error ⟨.nameError, "name \x27AttributeErrror\x27 is not defined"⟩
  | some raw =>
    let system_name := py_lower (py_strip raw)
    if system_name ≠ "" then .ok ((system_name_map.lookup system_name).getD system_name)
    else .ok "UNKNOWN_SYSTEM_NAME"

/-- Python semantics of the attribute access `kernel_version.startswith(...)`
on lines 238-242, where `kernel_version` is the list produced by
`str.split('.')` (line 236): list objects have no `startswith` attribute, so
the call raises `AttributeError` unconditionally, whatever the arguments. -/
def list_startswith (_l _pre : List String) : Except PyExc Bool :=
  .error ⟨.attributeError, "\x27list\x27 object has no attribute \x27startswith\x27"⟩

/-- Embedding of `get_system_version` (lines 228-251).  `system_version` is
`platform.dist()[1]`, `system_name` the result of `get_system_name()`, and
`kernel_release` is `platform.uname()[2]`. -/
def get_system_version (system_version system_name kernel_release : String) :
    Except PyExc String :=
  if system_version ≠ "" then
    if system_name = "suse" then
      if system_version = "11" then do
        let kernel_version := kernel_release.splitOn "."
        let suff ← do
          let b27 ← list_startswith kernel_version ["2", "6", "27"]
          if b27 then pure ""
          else do
            let b32 ← list_startswith kernel_version ["2", "6", "32"]
            if b32 then pure "_SP1"
            else do
              let b30 ← list_startswith kernel_version ["3", "0"]
              if b30 then pure "_SP2" else pure "_UNKNOWN_SP"
        pure (system_version ++ suff)
      else pure system_version
    else pure system_version
  else pure "UNKNOWN_SYSTEM_VERSION"

/-- Substring occurrence test over character lists (python `pat in s`). -/
def list_has_sub (pat : List Char) : List Char → Bool
  | [] => pat.isEmpty
  | c :: cs => pat.isPrefixOf (c :: cs) || list_has_sub pat cs

/-- Substring occurrence test: `str_has_sub s pat` holds when `pat` occurs
contiguously inside `s`. -/
def str_has_sub (s pat : String) : Bool := list_has_sub pat.data s.data

theorem list_has_sub_nil_pat (l : List Char) : list_has_sub [] l = true := by
  cases l <;> simp [list_has_sub, List.isPrefixOf]

theorem list_has_sub_append (pat l r : List Char) :
    list_has_sub pat (l ++ pat ++ r) = true := by
  induction l with
  | nil =>
    cases pat with
    | nil => simpa using list_has_sub_nil_pat r
    | cons p ps =>
      show list_has_sub (p :: ps) ((p :: ps) ++ r) = true
      have hpre : (p :: ps).isPrefixOf ((p :: ps) ++ r) = true :=
        ( List.isPrefixOf_iff_prefix).mpr ( List.prefix_append _ _)
      simp [list_has_sub, hpre]
  | cons c cl ih =>
    show list_has_sub pat (c :: (cl ++ pat ++ r)) = true
    simp only [list_has_sub, ih, Bool.or_true]

theorem str_has_sub_mid (a pat b : String) : str_has_sub (a ++ pat ++ b) pat = true := by
  unfold str_has_sub
  rw [String.data_append, String.data_append]
  exact list_has_sub_append _ _ _

theorem str_has_sub_end (a pat : String) : str_has_sub (a ++ pat) pat = true := by
  have h : a ++ pat = a ++ pat ++ "" := by rw [String.append_empty]
  rw [h]
  exact str_has_sub_mid a pat ""

theorem fpm_depstring_eq_join {α : Type} (pns : PNS α) (deps : List α) :
    fpm_depstring pns deps = String.join (deps.map (dep_fragment pns)) := by
  simp [fpm_depstring, String.join, List.foldl_map]

/-- A concrete naming scheme used to instantiate the packaging theorems:
descriptors are strings and resolve to themselves. -/
def pnsStr : PNS String :=
  { name := fun ec => ec, version := fun ec => ec, release := "1" }

/-- A concrete build with a real toolchain and two declared dependencies. -/
def ebSample : EasyBlock String :=
  { cfg := "zlib-1.2.8"
    cfgDependencies := ["depA-1.0", "depB-2.0"]
    toolchain := { name := "goolf", as_dict := "goolf-1.4.10" }
    installdir := "/software/zlib/1.2.8"
    module_generator := { filename := "/modules/zlib/1.2.8.lua" } }

/-- A concrete build with the dummy toolchain and no dependencies. -/
def ebNoDeps : EasyBlock String :=
  { cfg := "bzip2-1.0.6"
    cfgDependencies := []
    toolchain := { name := DUMMY_TOOLCHAIN_NAME, as_dict := "dummy-dummy" }
    installdir := "/software/bzip2/1.0.6"
    module_generator := { filename := "/modules/bzip2/1.0.6.lua" } }

/-- PATH on which no tool is found. -/
def which_none : String → Option String := fun _ => none

/-- PATH on which only fpm is found. -/
def which_fpm_only : String → Option String :=
  fun t => if t = "fpm" then some "/usr/bin/fpm" else none

/-- PATH on which every tool is found. -/
def which_all : String → Option String := fun t => some ("/usr/bin/" ++ t)

/-- C1: for every packaging invocation that reaches command assembly (the
chdir into the fresh work directory succeeds), the command string handed to
`run_cmd` is the space-join of exactly these tokens, in this order: the fpm
tool name, `--workdir` and the work directory, `--name` and the resolved
package name, `--provides` and that same name, `-t` and the configured
package type, `-s` `dir`, `--version` and the resolved version,
`--iteration` and the resolved release, the accumulated `--depends`
fragments, the install directory and the module file path; and the function
returns the work directory. -/
theorem fpm_command_tokens {α : Type} (pns : PNS α) (eb : EasyBlock α)
    (workdir pkgtype : String) :
    package_with_fpm pns eb workdir pkgtype none =
      .ok { cmd := PKG_TOOL_FPM
              ++ " " ++ "--workdir" ++ " " ++ workdir
              ++ " " ++ "--name" ++ " " ++ pns.name eb.cfg
              ++ " " ++ "--provides" ++ " " ++ pns.name eb.cfg
              ++ " " ++ "-t" ++ " " ++ pkgtype
              ++ " " ++ "-s" ++ " " ++ "dir"
              ++ " " ++ "--version" ++ " " ++ pns.version eb.cfg
              ++ " " ++ "--iteration" ++ " " ++ pns.release
              ++ " " ++ fpm_depstring pns (fpm_deps eb)
              ++ " " ++ eb.installdir
              ++ " " ++ eb.module_generator.filename
            pkgdir := workdir } := by
  simp [package_with_fpm, String.intercalate, String.intercalate.go, String.append_assoc]

/-- C2: the depends string is one fragment `" --depends '<resolved name>'"`
per entry of the assembled dependency list, in order; that list is the
declared dependencies with the toolchain dict prepended exactly when the
toolchain is not the dummy toolchain; each fragment contains the resolved
dependency name; and with no dependencies and a dummy toolchain the depends
string is empty. -/
theorem fpm_depends_fragments {α : Type} (pns : PNS α) (eb : EasyBlock α) :
    fpm_depstring pns (fpm_deps eb) = String.join ((fpm_deps eb).map (dep_fragment pns))
      ∧ (∀ dep, dep ∈ fpm_deps eb →
          str_has_sub (dep_fragment pns dep) (pns.name dep) = true)
      ∧ (eb.toolchain.name = DUMMY_TOOLCHAIN_NAME → fpm_deps eb = eb.cfgDependencies)
      ∧ (eb.toolchain.name ≠ DUMMY_TOOLCHAIN_NAME →
          fpm_deps eb = eb.toolchain.as_dict :: eb.cfgDependencies)
      ∧ (eb.toolchain.name = DUMMY_TOOLCHAIN_NAME → eb.cfgDependencies = [] →
          fpm_depstring pns (fpm_deps eb) = "") := by
  refine ⟨fpm_depstring_eq_join pns _, ?_, ?_, ?_, ?_⟩
  · intro dep _
    exact str_has_sub_mid " --depends \x27" (pns.name dep) "\x27"
  · intro h
    simp [fpm_deps, h]
  · intro h
    simp [fpm_deps, h]
  · intro h1 h2
    simp [fpm_deps, fpm_depstring, h1, h2]

/-- Witness for C2 at concrete builds: a real toolchain is prepended before
the declared dependencies, the dummy-toolchain no-dependency build yields an
empty depends string, and a fragment contains its dependency name. -/
theorem fpm_depends_fragments_witness :
    fpm_deps ebSample = ["goolf-1.4.10", "depA-1.0", "depB-2.0"]
      ∧ fpm_depstring pnsStr (fpm_deps ebNoDeps) = ""
      ∧ str_has_sub (dep_fragment pnsStr "depA-1.0") "depA-1.0" = true := by
  refine ⟨?_, ?_, ?_⟩
  · exact (fpm_depends_fragments pnsStr ebSample).2.2.2.1 (by decide)
  · exact (fpm_depends_fragments pnsStr ebNoDeps).2.2.2.2 rfl rfl
  · exact (fpm_depends_fragments pnsStr ebSample).2.1 "depA-1.0" (by decide)

/-- The discovered naming schemes used to instantiate the resolver theorems. -/
def availSample : List (String × PNS String) := [("EasyBuildPNS", pnsStr)]

/-- C4: when the selected naming scheme is not among the discovered ones,
`ActivePNS.__init__` raises `EasyBuildError` with a message that contains
both the invalid selected name and the rendered list of discovered names;
when it is discovered, the corresponding scheme is instantiated. -/
theorem activePNS_init_spec {α : Type} (avail : List (String × PNS α)) (sel : String) :
    (avail.lookup sel = none →
        ∃ msg, activePNS_init avail sel = .error ⟨.easyBuildError, msg⟩
          ∧ str_has_sub msg sel = true
          ∧ str_has_sub msg (keys_repr (avail.map Prod.fst)) = true)
      ∧ (∀ pns, avail.lookup sel = some pns → activePNS_init avail sel = .ok pns) := by
  constructor
  · intro h
    refine ⟨"Selected package naming scheme " ++ sel ++ " could not be found in "
      ++ keys_repr (avail.map Prod.fst), ?_, ?_, ?_⟩
    · simp [activePNS_init, h]
    · rw [String.append_assoc]
      exact str_has_sub_mid _ _ _
    · exact str_has_sub_end _ _
  · intro pns h
    simp [activePNS_init, h]

/-- Witness for C4: a discovered name is instantiated; an unknown name
produces an `EasyBuildError` whose message holds the bad name and the list
of valid names. -/
theorem activePNS_init_witness :
    activePNS_init availSample "EasyBuildPNS" = .ok pnsStr
      ∧ ∃ msg, activePNS_init availSample "BogusPNS" = .error ⟨.easyBuildError, msg⟩
          ∧ str_has_sub msg "BogusPNS" = true
          ∧ str_has_sub msg (keys_repr (availSample.map Prod.fst)) = true := by
  constructor
  · exact (activePNS_init_spec availSample "EasyBuildPNS").2 pnsStr rfl
  · exact (activePNS_init_spec availSample "BogusPNS").1 rfl

/-- C5: `check_pkg_support` raises `EasyBuildError` with a message containing
the configured tool name whenever the tool is absent from PATH; when the
tool is fpm and the package type is rpm it additionally requires rpmbuild on
PATH, failing with a distinct fixed message if absent; in the remaining
cases it returns without doing anything. -/
theorem check_pkg_support_spec (which : String → Option String) (pkgtool pkgtype : String) :
    (which pkgtool = none →
        ∃ msg, check_pkg_support which pkgtool pkgtype = .error ⟨.easyBuildError, msg⟩
          ∧ str_has_sub msg pkgtool = true)
      ∧ (∀ p, which pkgtool = some p → pkgtool = PKG_TOOL_FPM → pkgtype = PKG_TYPE_RPM →
          which "rpmbuild" = none →
          check_pkg_support which pkgtool pkgtype =
            .error ⟨.easyBuildError,
              "rpmbuild is required when generating RPM packages with FPM, but was not found"⟩)
      ∧ (∀ p, which pkgtool = some p →
          (¬(pkgtool = PKG_TOOL_FPM ∧ pkgtype = PKG_TYPE_RPM) →
              check_pkg_support which pkgtool pkgtype = .ok ())
            ∧ (∀ r, which "rpmbuild" = some r →
                check_pkg_support which pkgtool pkgtype = .ok ()))
      ∧ (∀ t, ("rpmbuild is required when generating RPM packages with FPM, but was not found"
            : String) ≠ "Selected packaging tool \x27" ++ t ++ "\x27 not found") := by
  refine ⟨?_, ?_, ?_, ?_⟩
  · intro h
    refine ⟨"Selected packaging tool \x27" ++ pkgtool ++ "\x27 not found", ?_, ?_⟩
    · simp [check_pkg_support, h]
    · exact str_has_sub_mid _ _ _
  · intro p hp h1 h2 hr
    subst h1
    subst h2
    simp [check_pkg_support, hp, hr]
  · intro p hp
    constructor
    · intro hnot
      simp [check_pkg_support, hp, hnot]
    · intro r hr
      by_cases hc : pkgtool = PKG_TOOL_FPM ∧ pkgtype = PKG_TYPE_RPM
      · obtain ⟨hc1, hc2⟩ := hc
        subst hc1
        subst hc2
        simp [check_pkg_support, hp, hr]
      · simp [check_pkg_support, hp, hc]
  · intro t heq
    have h1 : ("rpmbuild is required when generating RPM packages with FPM, but was not found"
        : String).data.head? = some 'r' := rfl
    have h2 : ("Selected packaging tool \x27" ++ t ++ "\x27 not found" : String).data.head?
        = some 'S' := by
      rw [String.data_append]
      rfl
    rw [heq] at h1
    have := h1.symm.trans h2
    exact absurd this (by decide)

/-- Witness for C5 on concrete PATHs: missing tool raises with the tool name
in the message, fpm+rpm without rpmbuild raises the fixed rpmbuild message,
and the two passing configurations return unit. -/
theorem check_pkg_support_witness :
    (∃ msg, check_pkg_support which_none "fpm" "rpm" = .error ⟨.easyBuildError, msg⟩
        ∧ str_has_sub msg "fpm" = true)
      ∧ check_pkg_support which_fpm_only "fpm" "rpm" =
          .error ⟨.easyBuildError,
            "rpmbuild is required when generating RPM packages with FPM, but was not found"⟩
      ∧ check_pkg_support which_all "fpm" "rpm" = .ok ()
      ∧ check_pkg_support which_fpm_only "fpm" "deb" = .ok () := by
  refine ⟨?_, ?_, ?_, ?_⟩
  · exact (check_pkg_support_spec which_none "fpm" "rpm").1 rfl
  · exact (check_pkg_support_spec which_fpm_only "fpm" "rpm").2.1 "/usr/bin/fpm" rfl rfl rfl rfl
  · exact ((check_pkg_support_spec which_all "fpm" "rpm").2.2.1 "/usr/bin/fpm" rfl).2
      "/usr/bin/rpmbuild" rfl
  · exact ((check_pkg_support_spec which_fpm_only "fpm" "deb").2.2.1 "/usr/bin/fpm" rfl).1
      (by decide)

/-- C6 counterexample: at a concrete failing chdir and a concrete unknown
packaging tool, the two raised exceptions carry the same exception class
(`EasyBuildError`), so the working-directory failure kind is not distinct
from the kind used for bad tool selection. -/
theorem chdir_error_class_coincides :
    ∃ e1 e2 : PyExc,
      package_with_fpm pnsStr ebSample "/tmp/eb-pkgs-X" "rpm" (some "Permission denied")
          = .error e1
        ∧ package "pacman" pnsStr ebSample "/tmp/eb-pkgs-X" "rpm" none = .error e2
        ∧ e1.cls = e2.cls := by
  exact ⟨_, _, rfl, rfl, rfl⟩

/-- C6 amended: when the chdir into the work directory fails, packaging
raises an `EasyBuildError` — the same exception class used for bad tool or
naming-scheme selection — whose message is the dedicated
"Failed to chdir into workdir" format. -/
theorem chdir_failure_raises {α : Type} (pns : PNS α) (eb : EasyBlock α)
    (workdir pkgtype err : String) :
    package_with_fpm pns eb workdir pkgtype (some err) =
      .error ⟨.easyBuildError, "Failed to chdir into workdir " ++ workdir ++ ": " ++ err⟩ :=
  rfl

theorem gcc_skip1 (c : Int) (hc : ¬0 < c) (ci : Option String) (so : String) :
    get_core_count none (some c) ci so = get_core_count none none ci so := by
  simp [get_core_count, hc]

theorem gcc_skip2 (s : String) (hs : str_count s "processor\t:" = 0) (so : String) :
    get_core_count none none (some s) so = get_core_count none none none so := by
  simp [get_core_count, hs]

theorem gcc_tail_eq (so : String) :
    get_core_count none none none so =
      match py_int so with
      | some c =>
        if 0 < c then .ok c
        else .error ⟨.systemToolsException, "Can not determine number of cores on this system"⟩
      | none =>
        .error ⟨.systemToolsException, "Can not determine number of cores on this system"⟩ := by
  cases hpi : py_int so with
  | some c => by_cases hc : 0 < c <;> simp [get_core_count, hpi, hc]
  | none => simp [get_core_count, hpi]

theorem gcc_tail_ok_pos (so : String) (n : Int)
    (h : get_core_count none none none so = .ok n) : 1 ≤ n := by
  rw [gcc_tail_eq] at h
  cases hpi : py_int so with
  | some c =>
    rw [hpi] at h
    by_cases hc : 0 < c
    · simp only [if_pos hc] at h
      injection h with h2
      omega
    · simp only [if_neg hc] at h
      exact absurd h (by simp)
  | none =>
    rw [hpi] at h
    exact absurd h (by simp)

theorem gcc_ci_ok_pos (ci : Option String) (so : String) (n : Int)
    (h : get_core_count none none ci so = .ok n) : 1 ≤ n := by
  cases ci with
  | some s =>
    by_cases hs : 0 < str_count s "processor\t:"
    · have hposZ : (0 : Int) < ((str_count s "processor\t:" : Nat) : Int) := by
        exact_mod_cast hs
      have h' : (Except.ok ((str_count s "processor\t:" : Nat) : Int) : Except PyExc Int)
          = .ok n := by
        simpa [get_core_count, hposZ] using h
      injection h' with h2
      omega
    · have h0 : str_count s "processor\t:" = 0 := by omega
      rw [gcc_skip2 s h0] at h
      exact gcc_tail_ok_pos so n h
  | none => exact gcc_tail_ok_pos so n h

theorem gcc_tail_error_iff (so : String) :
    get_core_count none none none so
        = .error ⟨.systemToolsException, "Can not determine number of cores on this system"⟩
      ↔ (∀ c, py_int so = some c → ¬0 < c) := by
  rw [gcc_tail_eq]
  cases hpi : py_int so with
  | some c =>
    by_cases hc : 0 < c
    · simp [hpi, hc]
    · simp [hpi, hc]
      omega
  | none => simp [hpi]

theorem gcc_ci_error_iff (ci : Option String) (so : String) :
    get_core_count none none ci so
        = .error ⟨.systemToolsException, "Can not determine number of cores on this system"⟩
      ↔ (∀ s, ci = some s → str_count s "processor\t:" = 0)
        ∧ (∀ c, py_int so = some c → ¬0 < c) := by
  cases ci with
  | some s =>
    by_cases hs : 0 < str_count s "processor\t:"
    · have hposZ : (0 : Int) < ((str_count s "processor\t:" : Nat) : Int) := by
        exact_mod_cast hs
      have hne : str_count s "processor\t:" ≠ 0 := by omega
      simp [get_core_count, hposZ, hne]
    · have h0 : str_count s "processor\t:" = 0 := by omega
      rw [gcc_skip2 s h0, gcc_tail_error_iff]
      simp [h0]
  | none =>
    rw [gcc_tail_error_iff]
    simp

theorem gcc_error_iff (sysconf : Option Int) (ci : Option String) (so : String) :
    get_core_count none sysconf ci so
        = .error ⟨.systemToolsException, "Can not determine number of cores on this system"⟩
      ↔ (∀ c, sysconf = some c → ¬0 < c)
        ∧ (∀ s, ci = some s → str_count s "processor\t:" = 0)
        ∧ (∀ c, py_int so = some c → ¬0 < c) := by
  cases sysconf with
  | some c =>
    by_cases hc : 0 < c
    · simp [get_core_count, hc]
    · rw [gcc_skip1 c hc, gcc_ci_error_iff]
      simp only [Option.some.injEq]
      constructor
      · rintro ⟨ha, hb⟩
        exact ⟨fun c2 h2 => h2 ▸ hc, ha, hb⟩
      · rintro ⟨-, ha, hb⟩
        exact ⟨ha, hb⟩
  | none =>
    rw [gcc_ci_error_iff]
    simp

/-- C3: on the synthetic suse-11 system with a 2.6.32 kernel,
`get_system_version` does not return a version string ending in `_SP1`:
line 238 invokes `startswith` on the list produced by `split('.')`, which
raises `AttributeError`, so the whole service-pack branch is unreachable;
outside the suse-11 branch the version passes through, and an empty version
yields the sentinel. -/
theorem suse11_service_pack_raises :
    get_system_version "11" "suse" "2.6.32.59-0.7-default"
        = .error ⟨.attributeError, "\x27list\x27 object has no attribute \x27startswith\x27"⟩
      ∧ get_system_version "11" "opensuse" "2.6.32.59-0.7-default" = .ok "11"
      ∧ get_system_version "12" "suse" "2.6.32.59-0.7-default" = .ok "12"
      ∧ get_system_version "" "suse" "2.6.32.59-0.7-default" = .ok "UNKNOWN_SYSTEM_VERSION" :=
  ⟨rfl, rfl, rfl, rfl⟩

/-- C7: `get_core_count` consults `multiprocessing.cpu_count`, then POSIX
sysconf, then the count of `processor\t:` occurrences in `/proc/cpuinfo`,
then `sysctl -n hw.ncpu`, in that order; under the documented contract of
`multiprocessing.cpu_count` (at least 1 whenever it does not raise), every
value it returns is at least 1; and the `SystemToolsException` is raised
exactly when all four sources fail. -/
theorem get_core_count_spec (mp sysconf : Option Int) (cpuinfo : Option String)
    (sysctlOut : String) (hmp : ∀ m, mp = some m → 1 ≤ m) :
    (∀ m, mp = some m → get_core_count mp sysconf cpuinfo sysctlOut = .ok m)
      ∧ (mp = none → ∀ c, sysconf = some c → 0 < c →
          get_core_count mp sysconf cpuinfo sysctlOut = .ok c)
      ∧ (mp = none → (∀ c, sysconf = some c → ¬0 < c) →
          ∀ s, cpuinfo = some s → 0 < str_count s "processor\t:" →
          get_core_count mp sysconf cpuinfo sysctlOut
            = .ok (str_count s "processor\t:"))
      ∧ (mp = none → (∀ c, sysconf = some c → ¬0 < c) →
          (∀ s, cpuinfo = some s → str_count s "processor\t:" = 0) →
          ∀ c, py_int sysctlOut = some c → 0 < c →
          get_core_count mp sysconf cpuinfo sysctlOut = .ok c)
      ∧ (∀ n, get_core_count mp sysconf cpuinfo sysctlOut = .ok n → 1 ≤ n)
      ∧ (get_core_count mp sysconf cpuinfo sysctlOut
            = .error ⟨.systemToolsException, "Can not determine number of cores on this system"⟩
          ↔ mp = none ∧ (∀ c, sysconf = some c → ¬0 < c)
            ∧ (∀ s, cpuinfo = some s → str_count s "processor\t:" = 0)
            ∧ (∀ c, py_int sysctlOut = some c → ¬0 < c)) := by
  refine ⟨?_, ?_, ?_, ?_, ?_, ?_⟩
  · intro m h
    subst h
    rfl
  · intro h0 c hc hpos
    subst h0
    subst hc
    simp [get_core_count, hpos]
  · intro h0 hsy s hs hpos
    subst h0
    subst hs
    have hposZ : (0 : Int) < ((str_count s "processor\t:" : Nat) : Int) := by
      exact_mod_cast hpos
    cases sysconf with
    | none => simp [get_core_count, hposZ]
    | some c =>
      rw [gcc_skip1 c (hsy c rfl)]
      simp [get_core_count, hposZ]
  · intro h0 hsy hci c hpi hpos
    subst h0
    have key : get_core_count none none none sysctlOut = .ok c := by
      rw [gcc_tail_eq, hpi]
      simp [hpos]
    cases sysconf with
    | none =>
      cases cpuinfo with
      | none => exact key
      | some s =>
        rw [gcc_skip2 s (hci s rfl)]
        exact key
    | some c2 =>
      rw [gcc_skip1 c2 (hsy c2 rfl)]
      cases cpuinfo with
      | none => exact key
      | some s =>
        rw [gcc_skip2 s (hci s rfl)]
        exact key
  · intro n h
    cases hm : mp with
    | some m =>
      rw [hm] at h
      have h' : (Except.ok m : Except PyExc Int) = .ok n := h
      injection h' with h2
      have := hmp m hm
      omega
    | none =>
      rw [hm] at h
      cases sysconf with
      | some c =>
        by_cases hc : 0 < c
        · have h' : (Except.ok c : Except PyExc Int) = .ok n := by
            simpa [get_core_count, hc] using h
          injection h' with h2
          omega
        · rw [gcc_skip1 c hc] at h
          exact gcc_ci_ok_pos cpuinfo sysctlOut n h
      | none => exact gcc_ci_ok_pos cpuinfo sysctlOut n h
  · cases hm : mp with
    | some m =>
      constructor
      · intro h
        exact absurd h (by simp [get_core_count])
      · rintro ⟨h, -⟩
        exact absurd h (by simp)
    | none =>
      rw [gcc_error_iff]
      simp

/-- Contents of a `/proc/cpuinfo` with four processor entries. -/
def cpu4 : String :=
  "processor\t: 0\nmodel name\t: X\nprocessor\t: 1\nprocessor\t: 2\nprocessor\t: 3\n"

/-- Witness for C7: with no native API, no sysconf, and a `/proc/cpuinfo`
holding four processor lines, the probe returns 4. -/
theorem get_core_count_witness :
    get_core_count none none (some cpu4) "" = .ok 4 := by
  have h := (get_core_count_spec none none (some cpu4) ""
      (fun m hm => nomatch hm)).2.2.1 rfl (fun c hc => nomatch hc) cpu4 rfl (by decide)
  exact h.trans (by decide)

/-- C8: the shared-library extension comes from a static two-entry table:
`so` for Linux, `dylib` for Darwin, and every other system type raises. -/
theorem get_shared_lib_ext_spec (s : String) :
    get_shared_lib_ext "Linux" = .ok "so"
      ∧ get_shared_lib_ext "Darwin" = .ok "dylib"
      ∧ shared_lib_exts = [("Linux", "so"), ("Darwin", "dylib")]
      ∧ (s ≠ "Linux" → s ≠ "Darwin" → ∃ e, get_shared_lib_ext s = .error e) := by
  refine ⟨rfl, rfl, rfl, ?_⟩
  intro h1 h2
  by_cases hlen : 0 < s.length
  · refine ⟨⟨.systemToolsException,
      "Unable to determine extention for shared libraries," ++ "unknown system name: " ++ s⟩, ?_⟩
    have e1 : (s == "Linux") = false := beq_eq_false_iff_ne.mpr h1
    have e2 : (s == "Darwin") = false := beq_eq_false_iff_ne.mpr h2
    simp [get_shared_lib_ext, get_system_type, hlen, shared_lib_exts, List.lookup, e1, e2]
  · exact ⟨⟨.systemToolsException, "Failed to determine system name using platform.system()."⟩,
      by simp [get_shared_lib_ext, get_system_type, hlen]⟩

/-- Witness for C8 at the concrete unknown system type `SunOS`. -/
theorem get_shared_lib_ext_witness :
    get_shared_lib_ext "Linux" = .ok "so"
      ∧ get_shared_lib_ext "Darwin" = .ok "dylib"
      ∧ ∃ e, get_shared_lib_ext "SunOS" = .error e := by
  obtain ⟨h1, h2, -, h4⟩ := get_shared_lib_ext_spec "SunOS"
  exact ⟨h1, h2, h4 (by decide) (by decide)⟩

/-- C9: the alias normalization and the empty-name sentinel behave as
described, but the fallback to the legacy distribution query is dead code:
when `platform.linux_distribution` is unavailable, the handler on line 212
evaluates the undefined name `AttributeErrror` and a `NameError` escapes
instead of consulting `platform.dist`. -/
theorem get_system_name_fallback_dead :
    get_system_name none "redhat"
        = .error ⟨.nameError, "name \x27AttributeErrror\x27 is not defined"⟩
      ∧ get_system_name (some "Red Hat Enterprise Linux Server") "" = .ok "RHEL"
      ∧ get_system_name (some "CentOS") "" = .ok "centos"
      ∧ get_system_name (some "") "" = .ok "UNKNOWN_SYSTEM_NAME" :=
  ⟨rfl, rfl, rfl, rfl⟩

/-- C10: with the version flag set, the Linux platform name discards the
actual kernel release: the result is machine, literal vendor `unknown`, and
`linux` with the fixed suffix `-gnu`, identical for any two release strings;
on Darwin the real release string is appended instead. -/
theorem get_platform_name_linux_discards_release (rel rel2 mach : String) :
    get_platform_name true "Linux" rel mach
        = .ok (mach ++ "-" ++ "unknown" ++ "-" ++ "linux" ++ "-gnu")
      ∧ get_platform_name true "Linux" rel mach = get_platform_name true "Linux" rel2 mach
      ∧ get_platform_name true "Darwin" rel mach
          = .ok (mach ++ "-" ++ "apple" ++ "-" ++ "darwin" ++ rel) :=
  ⟨rfl, rfl, rfl⟩

end EasyBuild
